import Mathlib

/-!
Shallow embedding of the gdees vendor-management servers.

Two variants are embedded:
  - the in-memory Express server (src/server.js): a mutable dataset of
    vendors, brands and issues, re-seeded with sample data whenever the
    vendors collection is empty;
  - the PostgreSQL-backed server (src/api/server.js): vendors, brands,
    issues, invoices, invoice payments and credit notes, with the
    invoice reconciliation endpoint /api/invoices-complete.

Conventions of the embedding:
  - SQL DATE values and JavaScript Date comparisons are modelled by Int
    (an ordinal day / timestamp); the JavaScript normalisation of empty
    date strings to null is absorbed into Option Int (none plays null).
  - DECIMAL amounts are modelled by Rat.
  - BIGSERIAL primary keys are modelled by a per-table nextId counter in
    the store state.
  - Request bodies are records with Option fields where the JavaScript
    code distinguishes absent or falsy values.
  - The created_at and updated_at TIMESTAMP columns, which no claim
    mentions, are omitted from the row types.
  - Database errors raised by the store (foreign-key and unique
    constraints declared in the CREATE TABLE statements of
    src/api/server.js, and missing rows) are modelled by a tagged error
    type; a failed statement leaves the store unchanged.
-/

namespace Gdees

/-- JavaScript `x || d` on an optional string: absent and empty strings fall back. -/
def jsOrStr (o : Option String) (d : String) : String :=
  match o with
  | none => d
  | some s => if s = "" then d else s

/-- JavaScript `x || null` on an optional string: the empty string collapses to null. -/
def jsOrNullStr (o : Option String) : Option String :=
  match o with
  | none => none
  | some s => if s = "" then none else some s

/-! ## In-memory variant (src/server.js) -/

/-- Vendor record of the in-memory database (src/server.js lines 24-39). -/
structure MemVendor where
  id : Nat
  name : String
  contact : String
  phone : String
  status : String
  dateAdded : String
deriving Repr, DecidableEq

/-- Brand record of the in-memory database (src/server.js lines 43-56). -/
structure MemBrand where
  id : Nat
  vendorId : Nat
  name : String
  category : String
  dateAdded : String
deriving Repr, DecidableEq

/-- Issue record of the in-memory database (src/server.js lines 60-67).
resolvedDate is absent until set (src/server.js line 148). -/
structure MemIssue where
  id : Nat
  vendorId : Nat
  title : String
  description : String
  status : String
  dateAdded : String
  resolvedDate : Option String
deriving Repr, DecidableEq

/-- The in-memory database object (src/server.js lines 12-18). -/
structure MemDB where
  vendors : List MemVendor
  brands : List MemBrand
  issues : List MemIssue
  lastSaved : String
deriving Repr, DecidableEq

/-- Sample vendors seeded by initializeDatabase (src/server.js lines 23-40). -/
def sampleVendors : List MemVendor :=
  [{ id := 1672531200000, name := "Fresh Farms Co.", contact := "john@freshfarms.com",
     phone := "+1-555-0123", status := "active", dateAdded := "2024-01-01" },
   { id := 1672617600000, name := "Dairy Delights", contact := "mary@dairydelights.com",
     phone := "+1-555-0456", status := "active", dateAdded := "2024-01-02" }]

/-- Sample brands seeded by initializeDatabase (src/server.js lines 42-57). -/
def sampleBrands : List MemBrand :=
  [{ id := 1672704000000, vendorId := 1672531200000, name := "Farm Fresh",
     category := "Produce", dateAdded := "2024-01-03" },
   { id := 1672790400000, vendorId := 1672617600000, name := "Creamy Choice",
     category := "Dairy", dateAdded := "2024-01-04" }]

/-- Sample issues seeded by initializeDatabase (src/server.js lines 59-68). -/
def sampleIssues : List MemIssue :=
  [{ id := 1672876800000, vendorId := 1672531200000, title := "Late delivery",
     description := "Order #123 was delivered 2 days late", status := "pending",
     dateAdded := "2024-01-05", resolvedDate := none }]

/-- Re-seed the dataset when the vendors collection is empty
(src/server.js lines 21-70). The three collections are assigned the
sample lists; lastSaved is not touched. -/
def initializeDatabase (db : MemDB) : MemDB :=
  if db.vendors = [] then
    { db with vendors := sampleVendors, brands := sampleBrands, issues := sampleIssues }
  else db

/-- GET /api/data (src/server.js lines 75-82): initialize, then return the dataset. -/
def memGetData (db : MemDB) : MemDB :=
  initializeDatabase db

/-- Body of POST /api/vendors. The object spread `{ id: Date.now(), ...req.body,
dateAdded: ... }` lets a caller-supplied id override the server-assigned one,
while dateAdded is written after the spread and always wins. -/
structure MemVendorBody where
  id? : Option Nat
  name : String
  contact : String
  phone : String
  status : String
deriving Repr, DecidableEq

/-- POST /api/vendors (src/server.js lines 85-100). `now` is Date.now(),
`nowISO` the ISO timestamp, `todayStr` the date part of the ISO timestamp. -/
def memPostVendor (db : MemDB) (now : Nat) (nowISO todayStr : String)
    (body : MemVendorBody) : MemDB × MemVendor :=
  let db := initializeDatabase db
  let vendor : MemVendor :=
    { id := body.id?.getD now, name := body.name, contact := body.contact,
      phone := body.phone, status := body.status, dateAdded := todayStr }
  ({ db with vendors := db.vendors ++ [vendor], lastSaved := nowISO }, vendor)

/-- Body of POST /api/brands; id may be overridden through the spread as for vendors. -/
structure MemBrandBody where
  id? : Option Nat
  vendorId : Nat
  name : String
  category : String
deriving Repr, DecidableEq

/-- POST /api/brands (src/server.js lines 103-118). -/
def memPostBrand (db : MemDB) (now : Nat) (nowISO todayStr : String)
    (body : MemBrandBody) : MemDB × MemBrand :=
  let db := initializeDatabase db
  let brand : MemBrand :=
    { id := body.id?.getD now, vendorId := body.vendorId, name := body.name,
      category := body.category, dateAdded := todayStr }
  ({ db with brands := db.brands ++ [brand], lastSaved := nowISO }, brand)

/-- Body of POST /api/issues. status? is listed because a caller may send it,
but the handler writes `status: "pending"` after the spread, so it is ignored;
resolvedDate?, written before the forced keys, survives the spread. -/
structure MemIssueBody where
  id? : Option Nat
  vendorId : Nat
  title : String
  description : String
  status? : Option String
  resolvedDate? : Option String
deriving Repr, DecidableEq

/-- POST /api/issues (src/server.js lines 121-137): status forced to pending,
dateAdded forced to the server date, id defaulted from the server clock but
overridable by the body (spread order). -/
def memPostIssue (db : MemDB) (now : Nat) (nowISO todayStr : String)
    (body : MemIssueBody) : MemDB × MemIssue :=
  let db := initializeDatabase db
  let issue : MemIssue :=
    { id := body.id?.getD now, vendorId := body.vendorId, title := body.title,
      description := body.description, status := "pending",
      dateAdded := todayStr, resolvedDate := body.resolvedDate? }
  ({ db with issues := db.issues ++ [issue], lastSaved := nowISO }, issue)

/-- Body of PUT /api/issues/:id; Object.assign merges only the fields present. -/
structure MemIssueUpdate where
  status? : Option String
  resolvedDate? : Option String
deriving Repr, DecidableEq

/-- Apply Object.assign(issue, req.body) followed by the resolved stamp
(src/server.js lines 146-149): fields present in the body overwrite the
record, and when the body status is "resolved" the resolvedDate is stamped
with the current date. A previously set resolvedDate is NOT cleared when the
body carries a different status. -/
def applyIssueUpdate (i : MemIssue) (u : MemIssueUpdate) (todayStr : String) : MemIssue :=
  let i := { i with status := u.status?.getD i.status,
                    resolvedDate := match u.resolvedDate? with
                      | some v => some v
                      | none => i.resolvedDate }
  if u.status? = some "resolved" then { i with resolvedDate := some todayStr } else i

/-- Update the first issue with the given id, as Array.prototype.find-and-mutate does. -/
def updateFirstIssue : List MemIssue → Nat → (MemIssue → MemIssue) → List MemIssue
  | [], _, _ => []
  | i :: rest, iid, f => if i.id = iid then f i :: rest else i :: updateFirstIssue rest iid f

/-- PUT /api/issues/:id (src/server.js lines 140-159). Returns the updated
issue, or none for the 404 branch. -/
def memPutIssue (db : MemDB) (issueId : Nat) (u : MemIssueUpdate)
    (todayStr nowISO : String) : MemDB × Option MemIssue :=
  let db := initializeDatabase db
  match db.issues.find? (fun i => i.id == issueId) with
  | some i =>
      ({ db with issues := updateFirstIssue db.issues issueId
                   (fun j => applyIssueUpdate j u todayStr),
                 lastSaved := nowISO }, some (applyIssueUpdate i u todayStr))
  | none => (db, none)

/-- DELETE /api/vendors/:id (src/server.js lines 162-176): filters vendors by
id and brands/issues by vendorId; always responds success (the Bool). -/
def memDeleteVendor (db : MemDB) (vendorId : Nat) (nowISO : String) : MemDB × Bool :=
  let db := initializeDatabase db
  ({ db with
      vendors := db.vendors.filter (fun v => v.id != vendorId),
      brands := db.brands.filter (fun b => b.vendorId != vendorId),
      issues := db.issues.filter (fun i => i.vendorId != vendorId),
      lastSaved := nowISO }, true)

/-- DELETE /api/brands/:id (src/server.js lines 179-189): filters brands by
id; always responds success. -/
def memDeleteBrand (db : MemDB) (brandId : Nat) (nowISO : String) : MemDB × Bool :=
  let db := initializeDatabase db
  ({ db with brands := db.brands.filter (fun b => b.id != brandId),
             lastSaved := nowISO }, true)

/-- An empty in-memory database, as at process start before any seeding. -/
def emptyMemDB : MemDB :=
  { vendors := [], brands := [], issues := [], lastSaved := "init" }

/-! ## PostgreSQL variant (src/api/server.js) -/

/-- Tagged store errors: a missing referenced row (foreign key or WHERE id
miss) and a unique-constraint violation. A failed statement writes nothing. -/
inductive DbError where
  | notFound
  | conflict
deriving Repr, DecidableEq

/-- Row of the vendors table (src/api/server.js lines 145-165). -/
structure PgVendor where
  id : Nat
  name : String
  contact_person : Option String
  phone : Option String
  email : Option String
  payment_terms : String
  visit_frequency : String
  last_visit : Option Int
  next_visit : Option Int
  has_display : String
  display_rent : Rat
  terms_conditions : Option String
  remarks : Option String
  status : String
  date_added : Int
deriving Repr, DecidableEq

/-- Row of the brands table (src/api/server.js lines 168-179). -/
structure PgBrand where
  id : Nat
  vendor_id : Nat
  name : String
  sku : Option String
  category : String
  date_added : Int
deriving Repr, DecidableEq

/-- Row of the issues table (src/api/server.js lines 182-198). -/
structure PgIssue where
  id : Nat
  vendor_id : Nat
  product_name : String
  issue_type : String
  quantity : Int
  date_found : Int
  estimated_loss : Rat
  description : Option String
  status : String
  resolved_date : Option Int
  date_added : Int
deriving Repr, DecidableEq

/-- Row of the invoices table (src/api/server.js lines 201-218),
with UNIQUE(vendor_id, invoice_number). -/
structure PgInvoice where
  id : Nat
  vendor_id : Nat
  invoice_number : String
  invoice_date : Int
  invoice_amount : Rat
  total_items : Int
  due_date : Option Int
  invoice_status : String
  date_added : Int
  last_updated : Int
deriving Repr, DecidableEq

/-- Row of the invoice_payments table (src/api/server.js lines 220-233). -/
structure PgPayment where
  id : Nat
  invoice_id : Nat
  payment_date : Int
  payment_amount : Rat
  payment_method : Option String
  cheque_number : Option String
  cheque_date : Option Int
  payment_notes : String
deriving Repr, DecidableEq

/-- Row of the credit_notes table (src/api/server.js lines 235-248),
with UNIQUE(crn_number). -/
structure PgCreditNote where
  id : Nat
  invoice_id : Nat
  crn_number : String
  credit_date : Int
  credit_amount : Rat
  items_returned : Int
  return_reason : String
  description : String
deriving Repr, DecidableEq

/-- The PostgreSQL store state: the six tables and their BIGSERIAL counters. -/
structure PgDB where
  nextVendorId : Nat
  vendors : List PgVendor
  nextBrandId : Nat
  brands : List PgBrand
  nextIssueId : Nat
  issues : List PgIssue
  nextInvoiceId : Nat
  invoices : List PgInvoice
  nextPaymentId : Nat
  payments : List PgPayment
  nextCreditNoteId : Nat
  creditNotes : List PgCreditNote
deriving Repr, DecidableEq

/-- An empty PostgreSQL store. -/
def emptyPgDB : PgDB :=
  { nextVendorId := 1, vendors := [], nextBrandId := 1, brands := [],
    nextIssueId := 1, issues := [], nextInvoiceId := 1, invoices := [],
    nextPaymentId := 1, payments := [], nextCreditNoteId := 1, creditNotes := [] }

/-- Body of POST /api/vendors in the PostgreSQL variant. There is no id
field: the INSERT has no id column, the store assigns it. -/
structure PgVendorReq where
  name : String
  contactPerson : Option String
  phone : Option String
  email : Option String
  paymentTerms : Option String
  visitFrequency : Option String
  lastVisit : Option Int
  nextVisit : Option Int
  hasDisplay : Option String
  displayRent : Option Rat
  termsConditions : Option String
  remarks : Option String
deriving Repr, DecidableEq

/-- POST /api/vendors (src/api/server.js lines 301-326): INSERT with the
named columns only; defaults advance/weekly/no/0 via JavaScript `||`;
status and date_added come from the column defaults. -/
def pgPostVendor (db : PgDB) (r : PgVendorReq) (today : Int) : PgDB × PgVendor :=
  let vendor : PgVendor :=
    { id := db.nextVendorId, name := r.name, contact_person := r.contactPerson,
      phone := r.phone, email := r.email,
      payment_terms := jsOrStr r.paymentTerms "advance",
      visit_frequency := jsOrStr r.visitFrequency "weekly",
      last_visit := r.lastVisit, next_visit := r.nextVisit,
      has_display := jsOrStr r.hasDisplay "no",
      display_rent := r.displayRent.getD 0,
      terms_conditions := r.termsConditions, remarks := r.remarks,
      status := "active", date_added := today }
  ({ db with vendors := db.vendors ++ [vendor], nextVendorId := db.nextVendorId + 1 },
   vendor)

/-- Body of POST /api/brands in the PostgreSQL variant. -/
structure PgBrandReq where
  vendorId : Nat
  name : String
  sku : Option String
  category : Option String
deriving Repr, DecidableEq

/-- POST /api/brands (src/api/server.js lines 329-344): INSERT(vendor_id,
name, sku, category); the vendor_id foreign key must reference a vendor. -/
def pgPostBrand (db : PgDB) (r : PgBrandReq) (today : Int) :
    Except DbError (PgDB × PgBrand) :=
  if db.vendors.any (fun v => v.id == r.vendorId) then
    let brand : PgBrand :=
      { id := db.nextBrandId, vendor_id := r.vendorId, name := r.name,
        sku := r.sku, category := jsOrStr r.category "groceries",
        date_added := today }
    .ok ({ db with brands := db.brands ++ [brand], nextBrandId := db.nextBrandId + 1 },
         brand)
  else .error .notFound

/-- Body of POST /api/issues in the PostgreSQL variant. -/
structure PgIssueReq where
  vendorId : Nat
  productName : String
  issueType : String
  quantity : Option Int
  dateFound : Option Int
  estimatedLoss : Option Rat
  description : Option String
deriving Repr, DecidableEq

/-- POST /api/issues (src/api/server.js lines 347-368): INSERT without the
status and resolved_date columns, so status defaults to pending and
resolved_date to null; quantity, dateFound and estimatedLoss default via
JavaScript `||` to 1, the server date, and 0. -/
def pgPostIssue (db : PgDB) (r : PgIssueReq) (today : Int) :
    Except DbError (PgDB × PgIssue) :=
  if db.vendors.any (fun v => v.id == r.vendorId) then
    let issue : PgIssue :=
      { id := db.nextIssueId, vendor_id := r.vendorId,
        product_name := r.productName, issue_type := r.issueType,
        quantity := r.quantity.getD 1, date_found := r.dateFound.getD today,
        estimated_loss := r.estimatedLoss.getD 0, description := r.description,
        status := "pending", resolved_date := none, date_added := today }
    .ok ({ db with issues := db.issues ++ [issue], nextIssueId := db.nextIssueId + 1 },
         issue)
  else .error .notFound

/-- PUT /api/issues/:id (src/api/server.js lines 423-450): resolved_date is
the current date exactly when the submitted status is resolved, else null;
UPDATE ... WHERE id; an empty row set yields the 404 branch. -/
def pgPutIssue (db : PgDB) (issueId : Nat) (status : String) (today : Int) :
    Except DbError (PgDB × PgIssue) :=
  let resolvedDate : Option Int := if status = "resolved" then some today else none
  match db.issues.find? (fun i => i.id == issueId) with
  | none => .error .notFound
  | some i =>
      let updated : PgIssue := { i with status := status, resolved_date := resolvedDate }
      .ok ({ db with issues := db.issues.map (fun j =>
               if j.id == issueId then { j with status := status,
                                                resolved_date := resolvedDate }
               else j) },
           updated)

/-- DELETE /api/vendors/:id (src/api/server.js lines 453-468) together with
the ON DELETE CASCADE clauses of the brands, issues, invoices,
invoice_payments and credit_notes tables: the vendor row goes, every brand,
issue and invoice referencing it goes, and every payment and credit note of
a removed invoice goes; a missing id yields the 404 branch. -/
def pgDeleteVendor (db : PgDB) (vendorId : Nat) : Except DbError PgDB :=
  if db.vendors.any (fun v => v.id == vendorId) then
    let removedInvoiceIds :=
      (db.invoices.filter (fun i => i.vendor_id == vendorId)).map (fun i => i.id)
    .ok { db with
      vendors := db.vendors.filter (fun v => v.id != vendorId),
      brands := db.brands.filter (fun b => b.vendor_id != vendorId),
      issues := db.issues.filter (fun i => i.vendor_id != vendorId),
      invoices := db.invoices.filter (fun i => i.vendor_id != vendorId),
      payments := db.payments.filter (fun p => !(removedInvoiceIds.contains p.invoice_id)),
      creditNotes := db.creditNotes.filter (fun c => !(removedInvoiceIds.contains c.invoice_id)) }
  else .error .notFound

/-- DELETE /api/brands/:id (src/api/server.js lines 471-486). -/
def pgDeleteBrand (db : PgDB) (brandId : Nat) : Except DbError PgDB :=
  if db.brands.any (fun b => b.id == brandId) then
    .ok { db with brands := db.brands.filter (fun b => b.id != brandId) }
  else .error .notFound

/-- Body of POST /api/invoices. The handler converts an absent or blank
dueDate string to null; that normalisation is absorbed into the Option. -/
structure InvoiceReq where
  vendorId : Nat
  invoiceNumber : String
  invoiceDate : Int
  invoiceAmount : Rat
  totalItems : Option Int
  dueDate : Option Int
deriving Repr, DecidableEq

/-- Key predicate of the invoice upsert: same vendor and invoice number. -/
def invoiceKeyMatch (r : InvoiceReq) (i : PgInvoice) : Bool :=
  i.vendor_id == r.vendorId && i.invoice_number == r.invoiceNumber

/-- The invoice row inserted by POST /api/invoices (src/api/server.js lines
402-410): invoice_status and date_added come from the column defaults. -/
def newInvoiceRow (db : PgDB) (r : InvoiceReq) (today : Int) : PgInvoice :=
  { id := db.nextInvoiceId, vendor_id := r.vendorId,
    invoice_number := r.invoiceNumber, invoice_date := r.invoiceDate,
    invoice_amount := r.invoiceAmount, total_items := r.totalItems.getD 0,
    due_date := r.dueDate, invoice_status := "pending",
    date_added := today, last_updated := today }

/-- The SET clause of the invoice UPDATE (src/api/server.js lines 389-397):
invoice_date, invoice_amount, total_items, due_date and last_updated are
overwritten, the other columns are kept. -/
def applyInvoiceUpdate (r : InvoiceReq) (today : Int) (j : PgInvoice) : PgInvoice :=
  { j with invoice_date := r.invoiceDate, invoice_amount := r.invoiceAmount,
           total_items := r.totalItems.getD 0, due_date := r.dueDate,
           last_updated := today }

/-- POST /api/invoices (src/api/server.js lines 373-420): SELECT by
(vendor_id, invoice_number); when rows exist, UPDATE invoice_date,
invoice_amount, total_items, due_date and last_updated on the matching rows
and report action updated; otherwise INSERT a new invoice (invoice_status
and date_added from column defaults) and report action created. The INSERT
is subject to the vendor_id REFERENCES vendors(id) foreign key of the
invoices table (src/api/server.js line 204): a vendorId matching no vendor
makes the INSERT fail, surfaced by the catch as an error with no row
written. The UPDATE branch does not touch vendor_id, so no foreign-key
check applies there. -/
def pgUpsertInvoice (db : PgDB) (r : InvoiceReq) (today : Int) :
    Except DbError (PgDB × PgInvoice × String) :=
  let existing := db.invoices.filter (invoiceKeyMatch r)
  match existing with
  | i :: _ =>
      .ok ({ db with invoices := db.invoices.map (fun j =>
               if invoiceKeyMatch r j then applyInvoiceUpdate r today j else j) },
           applyInvoiceUpdate r today i, "updated")
  | [] =>
      if db.vendors.any (fun v => v.id == r.vendorId) then
        .ok ({ db with invoices := db.invoices ++ [newInvoiceRow db r today],
                       nextInvoiceId := db.nextInvoiceId + 1 },
             newInvoiceRow db r today, "created")
      else .error .notFound

/-- Body of POST /api/payments. The blank-chequeDate-to-null normalisation
is absorbed into the Option. -/
structure PaymentReq where
  invoiceId : Nat
  paymentAmount : Rat
  paymentMethod : Option String
  paymentDate : Int
  chequeNumber : Option String
  chequeDate : Option Int
  notes : Option String
deriving Repr, DecidableEq

/-- The payment row inserted by POST /api/payments (src/api/server.js lines
691-705): cheque_number via `chequeNumber || null`, payment_notes via
`notes || ""`. -/
def newPaymentRow (db : PgDB) (r : PaymentReq) : PgPayment :=
  { id := db.nextPaymentId, invoice_id := r.invoiceId,
    payment_date := r.paymentDate, payment_amount := r.paymentAmount,
    payment_method := r.paymentMethod, cheque_number := jsOrNullStr r.chequeNumber,
    cheque_date := r.chequeDate, payment_notes := (r.notes.getD "") }

/-- POST /api/payments (src/api/server.js lines 668-716): the handler first
SELECTs any payment of the same invoice on the same date, but never branches
on the result — it always INSERTs a new invoice_payments row (action
created). The invoice_id foreign key must reference an invoice. -/
def pgRecordPayment (db : PgDB) (r : PaymentReq) :
    Except DbError (PgDB × PgPayment × String) :=
  let _existingPayment := db.payments.filter
    (fun p => p.invoice_id == r.invoiceId && p.payment_date == r.paymentDate)
  if db.invoices.any (fun i => i.id == r.invoiceId) then
    let p := newPaymentRow db r
    .ok ({ db with payments := db.payments ++ [p],
                   nextPaymentId := db.nextPaymentId + 1 },
         p, "created")
  else .error .notFound

/-- Body of POST /api/credit-notes. -/
structure CreditNoteReq where
  invoiceId : Nat
  crnNumber : String
  creditDate : Int
  creditAmount : Rat
  itemsReturned : Option Int
  returnReason : Option String
  description : Option String
deriving Repr, DecidableEq

/-- POST /api/credit-notes (src/api/server.js lines 719-739) against the
credit_notes table constraints: the invoice_id foreign key must reference an
invoice, and UNIQUE(crn_number) rejects a duplicate credit-note number
anywhere in the table; a rejected INSERT writes nothing. -/
def pgRecordCreditNote (db : PgDB) (r : CreditNoteReq) :
    Except DbError (PgDB × PgCreditNote) :=
  if db.invoices.any (fun i => i.id == r.invoiceId) then
    if db.creditNotes.any (fun c => c.crn_number == r.crnNumber) then
      .error .conflict
    else
      let cn : PgCreditNote :=
        { id := db.nextCreditNoteId, invoice_id := r.invoiceId,
          crn_number := r.crnNumber, credit_date := r.creditDate,
          credit_amount := r.creditAmount, items_returned := r.itemsReturned.getD 0,
          return_reason := r.returnReason.getD "", description := r.description.getD "" }
      .ok ({ db with creditNotes := db.creditNotes ++ [cn],
                     nextCreditNoteId := db.nextCreditNoteId + 1 },
           cn)
  else .error .notFound

/-- The POST /api/credit-notes endpoint as a state transition: on a store
error, the response carries the tagged error and the store is unchanged. -/
def postCreditNotes (db : PgDB) (r : CreditNoteReq) :
    PgDB × Except DbError PgCreditNote :=
  match pgRecordCreditNote db r with
  | .ok (db2, cn) => (db2, .ok cn)
  | .error e => (db, .error e)

/-! ## Invoice reconciliation (GET /api/invoices-complete) -/

/-- Caller-facing projection of a payment row (src/api/server.js lines
589-600). -/
structure PaymentView where
  id : Nat
  paymentDate : Int
  paymentAmount : Rat
  paymentMethod : String
  chequeNumber : String
  chequeDate : Option Int
  notes : String
deriving Repr, DecidableEq

/-- Caller-facing projection of a credit-note row (src/api/server.js lines
606-617). -/
structure CreditView where
  id : Nat
  crnNumber : String
  creditDate : Int
  creditAmount : Rat
  itemsReturned : Int
  returnReason : String
  description : String
deriving Repr, DecidableEq

/-- Project a payment row into its caller-facing shape. -/
def projPayment (p : PgPayment) : PaymentView :=
  { id := p.id, paymentDate := p.payment_date, paymentAmount := p.payment_amount,
    paymentMethod := p.payment_method.getD "", chequeNumber := p.cheque_number.getD "",
    chequeDate := p.cheque_date, notes := p.payment_notes }

/-- Project a credit-note row into its caller-facing shape. -/
def projCredit (c : PgCreditNote) : CreditView :=
  { id := c.id, crnNumber := c.crn_number, creditDate := c.credit_date,
    creditAmount := c.credit_amount, itemsReturned := c.items_returned,
    returnReason := c.return_reason, description := c.description }

/-- Payment-status derivation of /api/invoices-complete (src/api/server.js
lines 629-636), an if/else chain over outstanding, the payment total, the
due date and the current clock; `now` stands for `new Date()`. -/
def paymentStatusOf (outstanding totalPayments : Rat) (dueDate : Option Int)
    (now : Int) : String :=
  if outstanding ≤ 0 then "paid"
  else if 0 < totalPayments then "partial"
  else if (match dueDate with | some d => decide (d < now) | none => false) then "overdue"
  else "pending"

/-- The reconciled view of one invoice (src/api/server.js lines 638-655);
the vendor join columns, not involved in any claim, are omitted. -/
structure CompleteInvoice where
  id : Nat
  vendorId : Nat
  invoiceNumber : String
  invoiceDate : Int
  invoiceAmount : Rat
  totalItems : Int
  dueDate : Option Int
  paymentStatus : String
  paymentAmount : Rat
  totalCredits : Rat
  outstanding : Rat
  payments : List PaymentView
  creditNotes : List CreditView
deriving Repr, DecidableEq

/-- Reconcile one invoice (src/api/server.js lines 620-656): group the
payment and credit rows of the invoice (the by-invoice grouping is the
filter on invoice_id), project them, reduce their amounts from 0, subtract
both totals from the invoice amount, and derive the payment status. -/
def completeInvoice (inv : PgInvoice) (allPayments : List PgPayment)
    (allCredits : List PgCreditNote) (now : Int) : CompleteInvoice :=
  let invoicePayments := (allPayments.filter (fun p => p.invoice_id == inv.id)).map projPayment
  let invoiceCredits := (allCredits.filter (fun c => c.invoice_id == inv.id)).map projCredit
  let totalPayments := invoicePayments.foldl (fun s p => s + p.paymentAmount) 0
  let totalCredits := invoiceCredits.foldl (fun s c => s + c.creditAmount) 0
  let outstanding := inv.invoice_amount - totalPayments - totalCredits
  { id := inv.id, vendorId := inv.vendor_id, invoiceNumber := inv.invoice_number,
    invoiceDate := inv.invoice_date, invoiceAmount := inv.invoice_amount,
    totalItems := inv.total_items, dueDate := inv.due_date,
    paymentStatus := paymentStatusOf outstanding totalPayments inv.due_date now,
    paymentAmount := totalPayments, totalCredits := totalCredits,
    outstanding := outstanding, payments := invoicePayments,
    creditNotes := invoiceCredits }

/-- GET /api/invoices-complete (src/api/server.js lines 566-665): reconcile
every invoice against all payment and credit-note rows. -/
def invoicesComplete (db : PgDB) (now : Int) : List CompleteInvoice :=
  db.invoices.map (fun inv => completeInvoice inv db.payments db.creditNotes now)

/-- Status derivation as worded in the spec, for comparison with the code.
Modelled from the spec: precedence a-d of section 4.2 step 4 — outstanding
at most zero gives paid; else a positive payment total gives partial; else a
set due date strictly before the current date gives overdue; else pending. -/
def specStatus (outstanding totalPaid : Rat) (dueDate : Option Int)
    (today : Int) : String :=
  if outstanding ≤ 0 then "paid"
  else if totalPaid > 0 then "partial"
  else if (dueDate.elim false (fun d => decide (d < today))) then "overdue"
  else "pending"

/-! ## Concrete sample data for witnesses and counterexamples -/

/-- A concrete invoice of amount 500 with no due date. -/
def exInvoice500 : PgInvoice :=
  { id := 1, vendor_id := 1, invoice_number := "INV-1", invoice_date := 0,
    invoice_amount := 500, total_items := 0, due_date := none,
    invoice_status := "pending", date_added := 0, last_updated := 0 }

/-- A concrete payment of 700 against invoice 1 (an overpayment of exInvoice500). -/
def exPayments700 : List PgPayment :=
  [{ id := 1, invoice_id := 1, payment_date := 0, payment_amount := 700,
     payment_method := some "cash", cheque_number := none, cheque_date := none,
     payment_notes := "" }]

/-- A concrete invoice of amount 1000, due on day 5, with no payments. -/
def exInvoiceDue : PgInvoice :=
  { id := 1, vendor_id := 1, invoice_number := "INV-2", invoice_date := 0,
    invoice_amount := 1000, total_items := 0, due_date := some 5,
    invoice_status := "pending", date_added := 0, last_updated := 0 }

/-- A concrete credit note of 1000 against invoice 1, fully covering exInvoiceDue. -/
def exCredits1000 : List PgCreditNote :=
  [{ id := 1, invoice_id := 1, crn_number := "CRN-1", credit_date := 3,
     credit_amount := 1000, items_returned := 2, return_reason := "damaged",
     description := "" }]

/-! ## Helper lemmas -/

/-- Folding addition of a projected field from an accumulator equals the
accumulator plus the sum of the projections. -/
lemma foldl_add_proj {α : Type} (g : α → Rat) (l : List α) (a : Rat) :
    l.foldl (fun s x => s + g x) a = a + (l.map g).sum := by
  induction l generalizing a with
  | nil => simp
  | cons x xs ih =>
      simp only [List.foldl_cons, List.map_cons, List.sum_cons, ih]
      ring

/-! ## Claims -/

/-- C1: for every invoice and its lists of payments and credit notes, the
reconciled view of GET /api/invoices-complete has outstanding equal to the
invoice amount minus the sum of all payment amounts minus the sum of all
credit amounts; the result is not clamped and is negative on a concrete
overpaid invoice (amount 500, one payment of 700). -/
theorem invoicesComplete_outstanding :
    (∀ (inv : PgInvoice) (ps : List PgPayment) (cs : List PgCreditNote) (now : Int),
      (completeInvoice inv ps cs now).outstanding =
        inv.invoice_amount
          - ((ps.filter (fun p => p.invoice_id == inv.id)).map
              (fun p => p.payment_amount)).sum
          - ((cs.filter (fun c => c.invoice_id == inv.id)).map
              (fun c => c.credit_amount)).sum)
    ∧ (completeInvoice exInvoice500 exPayments700 [] 0).outstanding = -200
    ∧ ((-200 : Rat) < 0) := by
  refine ⟨?_, ?_, by norm_num⟩
  · intro inv ps cs now
    simp only [completeInvoice, List.foldl_map, projPayment, projCredit,
      foldl_add_proj, zero_add]
  · norm_num [completeInvoice, exInvoice500, exPayments700, projPayment]

/-- C2: the payment-status derivation of /api/invoices-complete is a total
deterministic function of (outstanding, totalPaid, dueDate, now) agreeing
with the spec precedence (specStatus), always yields exactly one of paid,
partial, overdue, pending with first-match precedence, and an invoice with
zero payments fully covered by credit notes is reported paid even when its
due date is strictly in the past. -/
theorem paymentStatus_total_deterministic :
    (∀ (o t : Rat) (dd : Option Int) (now : Int),
        paymentStatusOf o t dd now = specStatus o t dd now)
    ∧ (∀ (o t : Rat) (dd : Option Int) (now : Int),
        paymentStatusOf o t dd now = "paid" ∨ paymentStatusOf o t dd now = "partial"
          ∨ paymentStatusOf o t dd now = "overdue"
          ∨ paymentStatusOf o t dd now = "pending")
    ∧ (∀ (o t : Rat) (dd : Option Int) (now : Int),
        o ≤ 0 → paymentStatusOf o t dd now = "paid")
    ∧ (∀ (o t : Rat) (dd : Option Int) (now : Int),
        0 < o → 0 < t → paymentStatusOf o t dd now = "partial")
    ∧ (∀ (o t : Rat) (d now : Int),
        0 < o → t ≤ 0 → d < now → paymentStatusOf o t (some d) now = "overdue")
    ∧ (∀ (o t : Rat) (d now : Int),
        0 < o → t ≤ 0 → ¬(d < now) → paymentStatusOf o t (some d) now = "pending")
    ∧ (∀ (o t : Rat) (now : Int),
        0 < o → t ≤ 0 → paymentStatusOf o t none now = "pending")
    ∧ (∀ (inv : PgInvoice) (ps : List PgPayment) (cs : List PgCreditNote) (now d : Int),
        ps.filter (fun p => p.invoice_id == inv.id) = [] →
        inv.invoice_amount ≤
          ((cs.filter (fun c => c.invoice_id == inv.id)).map
            (fun c => c.credit_amount)).sum →
        inv.due_date = some d → d < now →
        (completeInvoice inv ps cs now).paymentStatus = "paid") := by
  refine ⟨?_, ?_, ?_, ?_, ?_, ?_, ?_, ?_⟩
  · intro o t dd now
    cases dd <;> simp [paymentStatusOf, specStatus]
  · intro o t dd now
    by_cases h1 : o ≤ 0
    · exact Or.inl (by simp [paymentStatusOf, h1])
    · by_cases h2 : 0 < t
      · exact Or.inr (Or.inl (by simp [paymentStatusOf, h1, h2]))
      · cases dd with
        | none => exact Or.inr (Or.inr (Or.inr (by simp [paymentStatusOf, h1, h2])))
        | some d =>
            by_cases h3 : d < now
            · exact Or.inr (Or.inr (Or.inl (by simp [paymentStatusOf, h1, h2, h3])))
            · exact Or.inr (Or.inr (Or.inr (by simp [paymentStatusOf, h1, h2, h3])))
  · intro o t dd now h
    simp [paymentStatusOf, h]
  · intro o t dd now h1 h2
    simp [paymentStatusOf, not_le.mpr h1, h2]
  · intro o t d now h1 h2 h3
    simp [paymentStatusOf, not_le.mpr h1, not_lt.mpr h2, h3]
  · intro o t d now h1 h2 h3
    simp [paymentStatusOf, not_le.mpr h1, not_lt.mpr h2, h3]
  · intro o t now h1 h2
    simp [paymentStatusOf, not_le.mpr h1, not_lt.mpr h2]
  · intro inv ps cs now d hps hcs hdd hlt
    have hcredit :
        ((cs.filter (fun c => c.invoice_id == inv.id)).map projCredit).foldl
          (fun s c => s + c.creditAmount) 0
          = ((cs.filter (fun c => c.invoice_id == inv.id)).map
              (fun c => c.credit_amount)).sum := by
      simp only [List.foldl_map, projCredit, foldl_add_proj, zero_add]
    simp only [completeInvoice, hps, List.map_nil, List.foldl_nil, hcredit]
    unfold paymentStatusOf
    rw [if_pos (show inv.invoice_amount - 0
      - ((cs.filter (fun c => c.invoice_id == inv.id)).map
          (fun c => c.credit_amount)).sum ≤ 0 by linarith)]

/-- Witness for C2: the fully-credited scenario at a concrete invoice of
amount 1000 due on day 5, no payments, one credit note of 1000, evaluated
at day 10. -/
theorem paymentStatus_total_deterministic_witness :
    (completeInvoice exInvoiceDue [] exCredits1000 10).paymentStatus = "paid" :=
  paymentStatus_total_deterministic.2.2.2.2.2.2.2 exInvoiceDue [] exCredits1000 10 5
    rfl (by norm_num [exInvoiceDue, exCredits1000]) rfl (by norm_num)

/-- C3: POST /api/payments always appends a new Payment row whenever the
referenced invoice exists: the same-day-payment query result never changes
the insert (the append happens identically when a same-day payment already
exists), and two identical calls append two distinct rows, both reported as
action created. -/
theorem recordPayment_always_inserts :
    (∀ (db : PgDB) (r : PaymentReq),
        db.invoices.any (fun i => i.id == r.invoiceId) = true →
        pgRecordPayment db r =
          .ok ({ db with payments := db.payments ++ [newPaymentRow db r],
                         nextPaymentId := db.nextPaymentId + 1 },
               newPaymentRow db r, "created"))
    ∧ (∀ (db : PgDB) (r : PaymentReq),
        db.invoices.any (fun i => i.id == r.invoiceId) = true →
        db.payments.filter
          (fun p => p.invoice_id == r.invoiceId && p.payment_date == r.paymentDate) ≠ [] →
        pgRecordPayment db r =
          .ok ({ db with payments := db.payments ++ [newPaymentRow db r],
                         nextPaymentId := db.nextPaymentId + 1 },
               newPaymentRow db r, "created"))
    ∧ (∀ (db db1 db2 : PgDB) (r : PaymentReq) (p1 p2 : PgPayment) (a1 a2 : String),
        db.invoices.any (fun i => i.id == r.invoiceId) = true →
        pgRecordPayment db r = .ok (db1, p1, a1) →
        pgRecordPayment db1 r = .ok (db2, p2, a2) →
        db2.payments = db.payments ++ [p1, p2] ∧ p1.id ≠ p2.id
          ∧ a1 = "created" ∧ a2 = "created") := by
  refine ⟨?_, ?_, ?_⟩
  · intro db r h
    simp [pgRecordPayment, h]
  · intro db r h _
    simp [pgRecordPayment, h]
  · intro db db1 db2 r p1 p2 a1 a2 hinv h1 h2
    simp only [pgRecordPayment, hinv, if_true, Except.ok.injEq, Prod.mk.injEq] at h1
    obtain ⟨hdb1, hp1, ha1⟩ := h1
    subst hdb1
    simp only [pgRecordPayment, hinv, if_true, Except.ok.injEq, Prod.mk.injEq] at h2
    obtain ⟨hdb2, hp2, ha2⟩ := h2
    subst hdb2
    refine ⟨?_, ?_, ha1.symm, ha2.symm⟩
    · simp [← hp1, ← hp2]
    · rw [← hp1, ← hp2]
      simp [newPaymentRow]

/-- Witness for C3: a store with one invoice and an existing payment on the
same invoice and date still gets a fresh row appended. -/
theorem recordPayment_always_inserts_witness :
    pgRecordPayment
      { emptyPgDB with
          invoices := [exInvoiceDue],
          payments := [{ id := 1, invoice_id := 1, payment_date := 7,
                         payment_amount := 100, payment_method := some "cash",
                         cheque_number := none, cheque_date := none,
                         payment_notes := "" }],
          nextPaymentId := 2 }
      { invoiceId := 1, paymentAmount := 50, paymentMethod := some "cash",
        paymentDate := 7, chequeNumber := none, chequeDate := none, notes := none } =
    .ok ({ emptyPgDB with
            invoices := [exInvoiceDue],
            payments := [{ id := 1, invoice_id := 1, payment_date := 7,
                           payment_amount := 100, payment_method := some "cash",
                           cheque_number := none, cheque_date := none,
                           payment_notes := "" },
                         newPaymentRow
                           { emptyPgDB with
                               invoices := [exInvoiceDue],
                               payments := [{ id := 1, invoice_id := 1, payment_date := 7,
                                              payment_amount := 100,
                                              payment_method := some "cash",
                                              cheque_number := none, cheque_date := none,
                                              payment_notes := "" }],
                               nextPaymentId := 2 }
                           { invoiceId := 1, paymentAmount := 50,
                             paymentMethod := some "cash", paymentDate := 7,
                             chequeNumber := none, chequeDate := none, notes := none }],
            nextPaymentId := 3 },
         newPaymentRow
           { emptyPgDB with
               invoices := [exInvoiceDue],
               payments := [{ id := 1, invoice_id := 1, payment_date := 7,
                              payment_amount := 100, payment_method := some "cash",
                              cheque_number := none, cheque_date := none,
                              payment_notes := "" }],
               nextPaymentId := 2 }
           { invoiceId := 1, paymentAmount := 50, paymentMethod := some "cash",
             paymentDate := 7, chequeNumber := none, chequeDate := none, notes := none },
         "created") := by
  have h := recordPayment_always_inserts.2.1
    { emptyPgDB with
        invoices := [exInvoiceDue],
        payments := [{ id := 1, invoice_id := 1, payment_date := 7,
                       payment_amount := 100, payment_method := some "cash",
                       cheque_number := none, cheque_date := none,
                       payment_notes := "" }],
        nextPaymentId := 2 }
    { invoiceId := 1, paymentAmount := 50, paymentMethod := some "cash",
      paymentDate := 7, chequeNumber := none, chequeDate := none, notes := none }
    (by simp [emptyPgDB, exInvoiceDue]) (by simp [emptyPgDB])
  simpa [emptyPgDB] using h

/-- Filtering that comes up empty means no element satisfies the predicate. -/
lemma none_matches_of_filter_nil {α : Type} (p : α → Bool) (l : List α)
    (hf : l.filter p = []) : ∀ x ∈ l, p x = false := by
  intro x hx
  cases hpx : p x with
  | false => rfl
  | true =>
      have hm : x ∈ l.filter p := List.mem_filter.mpr ⟨hx, hpx⟩
      rw [hf] at hm
      exact absurd hm (List.not_mem_nil x)

/-- A conditional rewrite that never fires is the identity map. -/
lemma map_ite_id {α : Type} (p : α → Bool) (g : α → α) (l : List α)
    (h : ∀ x ∈ l, p x = false) :
    l.map (fun x => if p x then g x else x) = l := by
  induction l with
  | nil => rfl
  | cons x xs ih =>
      have hx := h x (List.mem_cons_self x xs)
      simp only [List.map_cons, hx, Bool.false_eq_true, if_false]
      rw [ih (fun y hy => h y (List.mem_cons_of_mem x hy))]

/-- The updated invoice row keeps its upsert key. -/
lemma invoiceKeyMatch_applyUpdate (r : InvoiceReq) (today : Int) (j : PgInvoice) :
    invoiceKeyMatch r (applyInvoiceUpdate r today j) = invoiceKeyMatch r j := by
  simp [invoiceKeyMatch, applyInvoiceUpdate]

/-- The freshly inserted invoice row matches its upsert key. -/
lemma invoiceKeyMatch_newRow (db : PgDB) (r : InvoiceReq) (today : Int) :
    invoiceKeyMatch r (newInvoiceRow db r today) = true := by
  simp [invoiceKeyMatch, newInvoiceRow]

/-- With no row under the key and the vendor present, the upsert takes the
INSERT branch. -/
lemma pgUpsertInvoice_of_filter_nil (db : PgDB) (r : InvoiceReq) (today : Int)
    (hf : db.invoices.filter (invoiceKeyMatch r) = [])
    (hv : db.vendors.any (fun v => v.id == r.vendorId) = true) :
    pgUpsertInvoice db r today =
      .ok ({ db with invoices := db.invoices ++ [newInvoiceRow db r today],
                     nextInvoiceId := db.nextInvoiceId + 1 },
           newInvoiceRow db r today, "created") := by
  simp [pgUpsertInvoice, hf, hv]

/-- With no row under the key and no vendor matching the foreign key, the
INSERT is rejected and nothing is written. -/
lemma pgUpsertInvoice_of_missing_vendor (db : PgDB) (r : InvoiceReq) (today : Int)
    (hf : db.invoices.filter (invoiceKeyMatch r) = [])
    (hv : db.vendors.any (fun v => v.id == r.vendorId) = false) :
    pgUpsertInvoice db r today = .error .notFound := by
  simp [pgUpsertInvoice, hf, hv]

/-- With rows under the key, the upsert takes the UPDATE branch. -/
lemma pgUpsertInvoice_of_filter_cons (db : PgDB) (r : InvoiceReq) (today : Int)
    (x : PgInvoice) (xs : List PgInvoice)
    (hf : db.invoices.filter (invoiceKeyMatch r) = x :: xs) :
    pgUpsertInvoice db r today =
      .ok ({ db with invoices := db.invoices.map (fun j =>
               if invoiceKeyMatch r j then applyInvoiceUpdate r today j else j) },
           applyInvoiceUpdate r today x, "updated") := by
  simp [pgUpsertInvoice, hf]

/-- C4: POST /api/invoices is an upsert keyed on (vendorId, invoiceNumber):
with an invoice under the key present, the call succeeds with action updated,
inserts no row, and every invoice under the key carries the new date, amount,
item count, due date and last-updated stamp; with none present and the
referenced vendor existing, it appends exactly one new invoice and reports
created; with none present and the vendorId matching no vendor, the INSERT
violates the vendors foreign key and fails with the tagged NotFound error
and no write; two successful calls with the same key and payload report
created then updated and leave exactly one invoice under the key. -/
theorem upsertInvoice_keyed_upsert :
    (∀ (db db2 : PgDB) (r : InvoiceReq) (today : Int) (i : PgInvoice) (a : String),
        db.invoices.filter (invoiceKeyMatch r) ≠ [] →
        pgUpsertInvoice db r today = .ok (db2, i, a) →
        a = "updated"
          ∧ db2.invoices.length = db.invoices.length
          ∧ ∀ j ∈ db2.invoices, invoiceKeyMatch r j →
              j.invoice_date = r.invoiceDate ∧ j.invoice_amount = r.invoiceAmount
                ∧ j.total_items = r.totalItems.getD 0 ∧ j.due_date = r.dueDate
                ∧ j.last_updated = today)
    ∧ (∀ (db : PgDB) (r : InvoiceReq) (today : Int) (e : DbError),
        db.invoices.filter (invoiceKeyMatch r) ≠ [] →
        pgUpsertInvoice db r today ≠ .error e)
    ∧ (∀ (db : PgDB) (r : InvoiceReq) (today : Int),
        db.invoices.filter (invoiceKeyMatch r) = [] →
        db.vendors.any (fun v => v.id == r.vendorId) = true →
        pgUpsertInvoice db r today =
          .ok ({ db with invoices := db.invoices ++ [newInvoiceRow db r today],
                         nextInvoiceId := db.nextInvoiceId + 1 },
               newInvoiceRow db r today, "created"))
    ∧ (∀ (db : PgDB) (r : InvoiceReq) (today : Int),
        db.invoices.filter (invoiceKeyMatch r) = [] →
        db.vendors.any (fun v => v.id == r.vendorId) = false →
        pgUpsertInvoice db r today = .error .notFound)
    ∧ (∀ (db db1 db2 : PgDB) (r : InvoiceReq) (today : Int) (i1 i2 : PgInvoice)
        (a1 a2 : String),
        db.invoices.filter (invoiceKeyMatch r) = [] →
        pgUpsertInvoice db r today = .ok (db1, i1, a1) →
        pgUpsertInvoice db1 r today = .ok (db2, i2, a2) →
        a1 = "created" ∧ a2 = "updated"
          ∧ (db2.invoices.filter (invoiceKeyMatch r)).length = 1) := by
  refine ⟨?_, ?_, ?_, ?_, ?_⟩
  · intro db db2 r today i a hne h
    cases hfe : db.invoices.filter (invoiceKeyMatch r) with
    | nil => exact absurd hfe hne
    | cons x xs =>
        rw [pgUpsertInvoice_of_filter_cons db r today x xs hfe] at h
        simp only [Except.ok.injEq, Prod.mk.injEq] at h
        obtain ⟨hdb2, _, ha⟩ := h
        subst hdb2
        refine ⟨ha.symm, by simp, ?_⟩
        intro j hj hkj
        rcases List.mem_map.mp hj with ⟨j0, _, rfl⟩
        by_cases hk : invoiceKeyMatch r j0
        · simp [hk, applyInvoiceUpdate]
        · rw [if_neg hk] at hkj
          exact absurd hkj hk
  · intro db r today e hne h
    cases hfe : db.invoices.filter (invoiceKeyMatch r) with
    | nil => exact absurd hfe hne
    | cons x xs =>
        rw [pgUpsertInvoice_of_filter_cons db r today x xs hfe] at h
        exact Except.noConfusion h
  · intro db r today hf hv
    exact pgUpsertInvoice_of_filter_nil db r today hf hv
  · intro db r today hf hv
    exact pgUpsertInvoice_of_missing_vendor db r today hf hv
  · intro db db1 db2 r today i1 i2 a1 a2 hf h1 h2
    have hnone := none_matches_of_filter_nil (invoiceKeyMatch r) db.invoices hf
    by_cases hv : db.vendors.any (fun v => v.id == r.vendorId)
    · rw [pgUpsertInvoice_of_filter_nil db r today hf hv] at h1
      simp only [Except.ok.injEq, Prod.mk.injEq] at h1
      obtain ⟨hdb1, _, ha1⟩ := h1
      subst hdb1
      have hfilter1 : (db.invoices ++ [newInvoiceRow db r today]).filter
          (invoiceKeyMatch r) = [newInvoiceRow db r today] := by
        rw [List.filter_append, hf]
        simp [invoiceKeyMatch_newRow]
      rw [pgUpsertInvoice_of_filter_cons
        { db with invoices := db.invoices ++ [newInvoiceRow db r today],
                  nextInvoiceId := db.nextInvoiceId + 1 }
        r today (newInvoiceRow db r today) [] hfilter1] at h2
      simp only [Except.ok.injEq, Prod.mk.injEq] at h2
      obtain ⟨hdb2, _, ha2⟩ := h2
      subst hdb2
      refine ⟨ha1.symm, ha2.symm, ?_⟩
      show (((db.invoices ++ [newInvoiceRow db r today]).map (fun j =>
          if invoiceKeyMatch r j then applyInvoiceUpdate r today j else j)).filter
            (invoiceKeyMatch r)).length = 1
      rw [List.map_append, map_ite_id _ _ _ hnone, List.filter_append, hf]
      simp [invoiceKeyMatch_newRow, invoiceKeyMatch_applyUpdate]
    · have herr : pgUpsertInvoice db r today = .error .notFound :=
        pgUpsertInvoice_of_missing_vendor db r today hf
          (by simpa using hv)
      rw [herr] at h1
      exact Except.noConfusion h1

/-- A concrete vendor-creation request used by witnesses. -/
def exVendorReq : PgVendorReq :=
  { name := "V", contactPerson := none, phone := none, email := none,
    paymentTerms := none, visitFrequency := none, lastVisit := none,
    nextVisit := none, hasDisplay := none, displayRent := none,
    termsConditions := none, remarks := none }

/-- A store holding one vendor and no invoices. -/
def exUpsertDB : PgDB :=
  (pgPostVendor emptyPgDB exVendorReq 0).1

/-- A concrete invoice upsert request against the vendor of exUpsertDB. -/
def exInvoiceReq : InvoiceReq :=
  { vendorId := 1, invoiceNumber := "INV-9", invoiceDate := 1,
    invoiceAmount := 250, totalItems := some 3, dueDate := some 30 }

/-- The store after the first (creating) upsert of exInvoiceReq. -/
def exUpsertDB1 : PgDB :=
  { exUpsertDB with
      invoices := exUpsertDB.invoices ++ [newInvoiceRow exUpsertDB exInvoiceReq 1],
      nextInvoiceId := exUpsertDB.nextInvoiceId + 1 }

/-- The store after the second (updating) upsert of exInvoiceReq. -/
def exUpsertDB2 : PgDB :=
  { exUpsertDB1 with
      invoices := exUpsertDB1.invoices.map (fun j =>
        if invoiceKeyMatch exInvoiceReq j then applyInvoiceUpdate exInvoiceReq 1 j
        else j) }

/-- Witness for C4: the double upsert from a one-vendor store with no
invoices succeeds twice, reporting created then updated, and leaves exactly
one invoice under the key. -/
theorem upsertInvoice_keyed_upsert_witness :
    (exUpsertDB2.invoices.filter (invoiceKeyMatch exInvoiceReq)).length = 1 :=
  (upsertInvoice_keyed_upsert.2.2.2.2 exUpsertDB exUpsertDB1 exUpsertDB2
    exInvoiceReq 1 (newInvoiceRow exUpsertDB exInvoiceReq 1)
    (applyInvoiceUpdate exInvoiceReq 1 (newInvoiceRow exUpsertDB exInvoiceReq 1))
    "created" "updated" rfl
    (by simp [pgUpsertInvoice, exUpsertDB, exUpsertDB1, pgPostVendor, emptyPgDB,
      exVendorReq, exInvoiceReq])
    (by simp [pgUpsertInvoice, exUpsertDB2, exUpsertDB1, exUpsertDB, pgPostVendor,
      emptyPgDB, exVendorReq, exInvoiceReq, invoiceKeyMatch, newInvoiceRow])).2.2

/-- C5: POST /api/credit-notes appends a credit note keyed by the globally
unique credit-note number; a duplicate number anywhere in the table yields
the tagged Conflict error with the store unchanged, a missing invoice
reference yields the tagged NotFound error with the store unchanged, and
otherwise exactly the one new row is appended. -/
theorem creditNote_conflict_no_partial_write :
    (∀ (db : PgDB) (r : CreditNoteReq),
        db.invoices.any (fun i => i.id == r.invoiceId) = true →
        db.creditNotes.any (fun c => c.crn_number == r.crnNumber) = true →
        postCreditNotes db r = (db, .error .conflict))
    ∧ (∀ (db : PgDB) (r : CreditNoteReq),
        db.invoices.any (fun i => i.id == r.invoiceId) = true →
        db.creditNotes.any (fun c => c.crn_number == r.crnNumber) = false →
        ∃ cn, postCreditNotes db r =
            ({ db with creditNotes := db.creditNotes ++ [cn],
                       nextCreditNoteId := db.nextCreditNoteId + 1 }, .ok cn)
          ∧ cn.crn_number = r.crnNumber ∧ cn.invoice_id = r.invoiceId
          ∧ cn.credit_amount = r.creditAmount)
    ∧ (∀ (db : PgDB) (r : CreditNoteReq),
        db.invoices.any (fun i => i.id == r.invoiceId) = false →
        postCreditNotes db r = (db, .error .notFound)) := by
  refine ⟨?_, ?_, ?_⟩
  · intro db r h1 h2
    simp [postCreditNotes, pgRecordCreditNote, h1, h2]
  · intro db r h1 h2
    refine ⟨{ id := db.nextCreditNoteId, invoice_id := r.invoiceId,
              crn_number := r.crnNumber, credit_date := r.creditDate,
              credit_amount := r.creditAmount,
              items_returned := r.itemsReturned.getD 0,
              return_reason := r.returnReason.getD "",
              description := r.description.getD "" }, ?_, rfl, rfl, rfl⟩
    simp [postCreditNotes, pgRecordCreditNote, h1, h2]
  · intro db r h1
    simp [postCreditNotes, pgRecordCreditNote, h1]

/-- Witness for C5: a duplicate credit-note number against a store holding
one invoice and one credit note is rejected as Conflict with the store
returned unchanged. -/
theorem creditNote_conflict_no_partial_write_witness :
    postCreditNotes
      { emptyPgDB with invoices := [exInvoiceDue], creditNotes := exCredits1000,
                       nextCreditNoteId := 2 }
      { invoiceId := 1, crnNumber := "CRN-1", creditDate := 4, creditAmount := 50,
        itemsReturned := none, returnReason := none, description := none } =
    ({ emptyPgDB with invoices := [exInvoiceDue], creditNotes := exCredits1000,
                      nextCreditNoteId := 2 }, .error .conflict) :=
  creditNote_conflict_no_partial_write.1
    { emptyPgDB with invoices := [exInvoiceDue], creditNotes := exCredits1000,
                     nextCreditNoteId := 2 }
    { invoiceId := 1, crnNumber := "CRN-1", creditDate := 4, creditAmount := 50,
      itemsReturned := none, returnReason := none, description := none }
    (by simp [emptyPgDB, exInvoiceDue]) (by simp [emptyPgDB, exCredits1000])

/-- A concrete in-memory vendor with id 5. -/
def exVendor5 : MemVendor :=
  { id := 5, name := "V", contact := "c", phone := "p",
    status := "active", dateAdded := "2024-01-01" }

/-- A concrete in-memory issue with id 1, pending, no resolvedDate. -/
def exIssue1 : MemIssue :=
  { id := 1, vendorId := 5, title := "T", description := "D",
    status := "pending", dateAdded := "2024-01-02", resolvedDate := none }

/-- A one-vendor, one-issue in-memory database (vendors non-empty, so no
re-seed occurs inside the handlers). -/
def exMemDB : MemDB :=
  { vendors := [exVendor5], brands := [], issues := [exIssue1], lastSaved := "init" }

/-- An update body carrying status resolved. -/
def exResolveBody : MemIssueUpdate := { status? := some "resolved", resolvedDate? := none }

/-- An update body carrying status pending. -/
def exPendingBody : MemIssueUpdate := { status? := some "pending", resolvedDate? := none }

/-- C6 counterexample: in the in-memory variant, resolving issue 1 and then
updating it back to pending leaves a reachable record whose status is not
resolved but whose resolvedDate is still set, refuting the claimed iff
between resolvedDate and the resolved status. -/
theorem memIssue_resolvedDate_not_iff :
    ((memPutIssue (memPutIssue exMemDB 1 exResolveBody "2024-02-01" "t1").1
        1 exPendingBody "2024-02-02" "t2").1.issues.find? (fun i => i.id == 1))
      = some { id := 1, vendorId := 5, title := "T", description := "D",
               status := "pending", dateAdded := "2024-01-02",
               resolvedDate := some "2024-02-01" }
    ∧ "pending" ≠ "resolved"
    ∧ some "2024-02-01" ≠ (none : Option String) := by
  refine ⟨by decide, by decide, by decide⟩

/-- C6 amended: in the PostgreSQL variant a successful PUT /api/issues/:id
leaves resolvedDate set exactly when the submitted status is resolved,
stamping the current date, both on the returned record and in the store, and
a missing id fails NotFound; in the in-memory variant a missing id also
takes the 404 branch, and an update whose body status is resolved stamps
resolvedDate with the current date, but (per the counterexample) an update
to a non-resolved status keeps a previously set resolvedDate, so the iff
between resolvedDate and the resolved status holds only in the PostgreSQL
variant. -/
theorem issue_resolvedDate_amended :
    (∀ (db db2 : PgDB) (issueId : Nat) (st : String) (today : Int) (i : PgIssue),
        pgPutIssue db issueId st today = .ok (db2, i) →
        i.status = st
          ∧ i.resolved_date = (if st = "resolved" then some today else none)
          ∧ ∀ j ∈ db2.issues, j.id = issueId →
              j.resolved_date = (if st = "resolved" then some today else none))
    ∧ (∀ (db : PgDB) (issueId : Nat) (st : String) (today : Int),
        db.issues.find? (fun i => i.id == issueId) = none →
        pgPutIssue db issueId st today = .error .notFound)
    ∧ (∀ (db : MemDB) (issueId : Nat) (u : MemIssueUpdate) (t1 t2 : String),
        (initializeDatabase db).issues.find? (fun i => i.id == issueId) = none →
        (memPutIssue db issueId u t1 t2).2 = none)
    ∧ (∀ (db : MemDB) (issueId : Nat) (u : MemIssueUpdate) (t1 t2 : String)
        (i : MemIssue),
        u.status? = some "resolved" →
        (memPutIssue db issueId u t1 t2).2 = some i →
        i.resolvedDate = some t1 ∧ i.status = "resolved") := by
  refine ⟨?_, ?_, ?_, ?_⟩
  · intro db db2 issueId st today i h
    cases hfind : db.issues.find? (fun j => j.id == issueId) with
    | none => simp [pgPutIssue, hfind] at h
    | some i0 =>
        simp only [pgPutIssue, hfind, Except.ok.injEq, Prod.mk.injEq] at h
        obtain ⟨hdb2, hi⟩ := h
        subst hdb2
        refine ⟨by rw [← hi], by rw [← hi], ?_⟩
        intro j hj hjid
        rcases List.mem_map.mp hj with ⟨j0, _, rfl⟩
        by_cases hk : j0.id == issueId
        · simp [hk]
        · rw [if_neg hk] at hjid ⊢
          exact absurd (by simp [hjid] : (j0.id == issueId) = true) hk
  · intro db issueId st today h
    simp [pgPutIssue, h]
  · intro db issueId u t1 t2 h
    simp [memPutIssue, h]
  · intro db issueId u t1 t2 i hres h
    cases hfind : (initializeDatabase db).issues.find? (fun j => j.id == issueId) with
    | none => simp [memPutIssue, hfind] at h
    | some i0 =>
        simp only [memPutIssue, hfind, Option.some.injEq] at h
        rw [← h]
        simp [applyIssueUpdate, hres]

/-- Witness for C6 amended: resolving issue 1 of the concrete store through
the in-memory handler stamps resolvedDate with the current date. -/
theorem issue_resolvedDate_amended_witness :
    ({ id := 1, vendorId := 5, title := "T", description := "D",
       status := "resolved", dateAdded := "2024-01-02",
       resolvedDate := some "2024-02-01" } : MemIssue).resolvedDate
        = some "2024-02-01"
    ∧ ({ id := 1, vendorId := 5, title := "T", description := "D",
         status := "resolved", dateAdded := "2024-01-02",
         resolvedDate := some "2024-02-01" } : MemIssue).status = "resolved" :=
  issue_resolvedDate_amended.2.2.2 exMemDB 1 exResolveBody "2024-02-01" "t1"
    { id := 1, vendorId := 5, title := "T", description := "D",
      status := "resolved", dateAdded := "2024-01-02",
      resolvedDate := some "2024-02-01" }
    rfl (by decide)

/-- C7 counterexample: in the in-memory variant the caller CAN override the
server-assigned identifier — POST /api/vendors with id 42 in the body at
server clock 100 returns a vendor whose id is 42, not 100, because the body
spread comes after the id field in the object literal. -/
theorem memPostVendor_id_overridden :
    (memPostVendor exMemDB 100 "ts" "2024-03-01"
        { id? := some 42, name := "N", contact := "c", phone := "p",
          status := "active" }).2.id = 42
    ∧ (42 : Nat) ≠ 100 :=
  ⟨rfl, by decide⟩

/-- C7 amended: the creation date of every created record is server-assigned
and cannot be overridden, and a created issue always has status pending, in
both variants; the identifier is server-assigned in the PostgreSQL variant
(BIGSERIAL, no id in the INSERT), while in the in-memory variant the
server-clock id is only the default — a caller-supplied id in the body
overrides it (per the counterexample), and with no id in the body the
server clock is used. -/
theorem create_server_assigned_amended :
    (∀ (db : PgDB) (r : PgVendorReq) (today : Int),
        (pgPostVendor db r today).2.id = db.nextVendorId
          ∧ (pgPostVendor db r today).2.date_added = today
          ∧ (pgPostVendor db r today).2.status = "active")
    ∧ (∀ (db db2 : PgDB) (r : PgBrandReq) (today : Int) (b : PgBrand),
        pgPostBrand db r today = .ok (db2, b) →
        b.id = db.nextBrandId ∧ b.date_added = today)
    ∧ (∀ (db db2 : PgDB) (r : PgIssueReq) (today : Int) (i : PgIssue),
        pgPostIssue db r today = .ok (db2, i) →
        i.id = db.nextIssueId ∧ i.date_added = today ∧ i.status = "pending"
          ∧ i.resolved_date = none)
    ∧ (∀ (db : MemDB) (now : Nat) (nowISO todayStr : String) (b : MemVendorBody),
        (memPostVendor db now nowISO todayStr b).2.dateAdded = todayStr
          ∧ (b.id? = none → (memPostVendor db now nowISO todayStr b).2.id = now))
    ∧ (∀ (db : MemDB) (now : Nat) (nowISO todayStr : String) (b : MemBrandBody),
        (memPostBrand db now nowISO todayStr b).2.dateAdded = todayStr
          ∧ (b.id? = none → (memPostBrand db now nowISO todayStr b).2.id = now))
    ∧ (∀ (db : MemDB) (now : Nat) (nowISO todayStr : String) (b : MemIssueBody),
        (memPostIssue db now nowISO todayStr b).2.status = "pending"
          ∧ (memPostIssue db now nowISO todayStr b).2.dateAdded = todayStr
          ∧ (b.id? = none → (memPostIssue db now nowISO todayStr b).2.id = now)) := by
  refine ⟨?_, ?_, ?_, ?_, ?_, ?_⟩
  · intro db r today
    exact ⟨rfl, rfl, rfl⟩
  · intro db db2 r today b h
    by_cases hv : db.vendors.any (fun v => v.id == r.vendorId)
    · simp only [pgPostBrand, hv, if_true, Except.ok.injEq, Prod.mk.injEq] at h
      obtain ⟨_, hb⟩ := h
      rw [← hb]
      exact ⟨rfl, rfl⟩
    · simp [pgPostBrand, hv] at h
  · intro db db2 r today i h
    by_cases hv : db.vendors.any (fun v => v.id == r.vendorId)
    · simp only [pgPostIssue, hv, if_true, Except.ok.injEq, Prod.mk.injEq] at h
      obtain ⟨_, hi⟩ := h
      rw [← hi]
      exact ⟨rfl, rfl, rfl, rfl⟩
    · simp [pgPostIssue, hv] at h
  · intro db now nowISO todayStr b
    refine ⟨rfl, ?_⟩
    intro hb
    simp [memPostVendor, hb]
  · intro db now nowISO todayStr b
    refine ⟨rfl, ?_⟩
    intro hb
    simp [memPostBrand, hb]
  · intro db now nowISO todayStr b
    refine ⟨rfl, rfl, ?_⟩
    intro hb
    simp [memPostIssue, hb]

/-- Witness for C7 amended: with no id in the body, the in-memory vendor
creation assigns the server clock as the id and the server date as the
creation date. -/
theorem create_server_assigned_amended_witness :
    (memPostVendor exMemDB 100 "ts" "2024-03-01"
        { id? := none, name := "N", contact := "c", phone := "p",
          status := "active" }).2.dateAdded = "2024-03-01"
    ∧ (memPostVendor exMemDB 100 "ts" "2024-03-01"
        { id? := none, name := "N", contact := "c", phone := "p",
          status := "active" }).2.id = 100 :=
  ⟨(create_server_assigned_amended.2.2.2.1 exMemDB 100 "ts" "2024-03-01"
      { id? := none, name := "N", contact := "c", phone := "p",
        status := "active" }).1,
   (create_server_assigned_amended.2.2.2.1 exMemDB 100 "ts" "2024-03-01"
      { id? := none, name := "N", contact := "c", phone := "p",
        status := "active" }).2 rfl⟩

/-- A filter whose predicate holds everywhere is the identity. -/
lemma filter_eq_self_of_forall {α : Type} (p : α → Bool) (l : List α)
    (h : ∀ x ∈ l, p x = true) : l.filter p = l := by
  induction l with
  | nil => rfl
  | cons x xs ih =>
      rw [List.filter_cons, if_pos (h x (List.mem_cons_self x xs)),
        ih (fun y hy => h y (List.mem_cons_of_mem x hy))]

/-- List.contains is false exactly on non-members. -/
lemma contains_eq_false_iff (ids : List Nat) (a : Nat) :
    (ids.contains a = false) ↔ ¬ a ∈ ids := by
  constructor
  · intro h ha
    have hc : ids.contains a = true := List.elem_iff.mpr ha
    rw [h] at hc
    exact Bool.false_ne_true hc
  · intro h
    cases hc : ids.contains a with
    | false => rfl
    | true => exact absurd (List.elem_iff.mp hc) h

/-- Membership in the cascade filter of the vendor delete: a row survives
exactly when its invoice reference is not among the removed invoices. -/
lemma mem_cascade_filter {β : Type} (idOf : β → Nat) (l : List β)
    (invs : List PgInvoice) (vid : Nat) (x : β) :
    x ∈ l.filter (fun y =>
        !((invs.filter (fun i => i.vendor_id == vid)).map (fun i => i.id)).contains (idOf y))
      ↔ (x ∈ l ∧ ∀ inv ∈ invs, inv.vendor_id = vid → inv.id ≠ idOf x) := by
  rw [List.mem_filter]
  constructor
  · intro hm
    obtain ⟨hx, hcond⟩ := hm
    rw [Bool.not_eq_true'] at hcond
    have hnot := (contains_eq_false_iff _ _).mp hcond
    refine ⟨hx, ?_⟩
    intro inv hinv hvid he
    exact hnot (List.mem_map.mpr ⟨inv, List.mem_filter.mpr ⟨hinv, by simp [hvid]⟩, he⟩)
  · intro hm
    obtain ⟨hx, hall⟩ := hm
    refine ⟨hx, ?_⟩
    rw [Bool.not_eq_true']
    refine (contains_eq_false_iff _ _).mpr ?_
    intro hmem
    rcases List.mem_map.mp hmem with ⟨inv, hinvf, he⟩
    rw [List.mem_filter] at hinvf
    exact hall inv hinvf.1 (by simpa using hinvf.2) he

/-- C8: deleting a vendor removes that vendor and exactly the brands,
issues and invoices referencing it; in the PostgreSQL variant the cascade
also removes the payments and credit notes of the removed invoices; records
referencing a different vendor survive in both variants. -/
theorem deleteVendor_cascades :
    (∀ (db : MemDB) (vid : Nat) (ts : String),
        db.vendors ≠ [] →
        (∀ v, v ∈ (memDeleteVendor db vid ts).1.vendors
            ↔ (v ∈ db.vendors ∧ v.id ≠ vid))
          ∧ (∀ b, b ∈ (memDeleteVendor db vid ts).1.brands
              ↔ (b ∈ db.brands ∧ b.vendorId ≠ vid))
          ∧ (∀ i, i ∈ (memDeleteVendor db vid ts).1.issues
              ↔ (i ∈ db.issues ∧ i.vendorId ≠ vid)))
    ∧ (∀ (db db2 : PgDB) (vid : Nat),
        pgDeleteVendor db vid = .ok db2 →
        (∀ v, v ∈ db2.vendors ↔ (v ∈ db.vendors ∧ v.id ≠ vid))
          ∧ (∀ b, b ∈ db2.brands ↔ (b ∈ db.brands ∧ b.vendor_id ≠ vid))
          ∧ (∀ i, i ∈ db2.issues ↔ (i ∈ db.issues ∧ i.vendor_id ≠ vid))
          ∧ (∀ inv, inv ∈ db2.invoices ↔ (inv ∈ db.invoices ∧ inv.vendor_id ≠ vid))
          ∧ (∀ p, p ∈ db2.payments ↔ (p ∈ db.payments ∧
              ∀ inv ∈ db.invoices, inv.vendor_id = vid → inv.id ≠ p.invoice_id))
          ∧ (∀ c, c ∈ db2.creditNotes ↔ (c ∈ db.creditNotes ∧
              ∀ inv ∈ db.invoices, inv.vendor_id = vid → inv.id ≠ c.invoice_id))) := by
  constructor
  · intro db vid ts hne
    have hinit : initializeDatabase db = db := by simp [initializeDatabase, hne]
    refine ⟨?_, ?_, ?_⟩ <;> intro x <;>
      simp [memDeleteVendor, hinit, List.mem_filter]
  · intro db db2 vid h
    by_cases hv : db.vendors.any (fun v => v.id == vid)
    · simp only [pgDeleteVendor, hv, if_true, Except.ok.injEq] at h
      subst h
      refine ⟨?_, ?_, ?_, ?_, ?_, ?_⟩
      · intro x; simp [List.mem_filter]
      · intro x; simp [List.mem_filter]
      · intro x; simp [List.mem_filter]
      · intro x; simp [List.mem_filter]
      · intro x
        exact mem_cascade_filter (fun p => p.invoice_id) db.payments db.invoices vid x
      · intro x
        exact mem_cascade_filter (fun c => c.invoice_id) db.creditNotes db.invoices vid x
    · simp [pgDeleteVendor, hv] at h

/-- Witness for C8: deleting vendor 5 from the concrete one-vendor store
removes it, shown by applying the cascade theorem at vendor 5 itself. -/
theorem deleteVendor_cascades_witness :
    ¬ (exVendor5 ∈ (memDeleteVendor exMemDB 5 "ts").1.vendors) :=
  fun hm =>
    (((deleteVendor_cascades.1 exMemDB 5 "ts"
        (by simp [exMemDB])).1 exVendor5).mp hm).2 rfl

/-- Re-seeding leaves the vendors collection non-empty. -/
lemma initializeDatabase_vendors_ne_nil (db : MemDB) :
    (initializeDatabase db).vendors ≠ [] := by
  by_cases h : db.vendors = []
  · simp [initializeDatabase, h, sampleVendors]
  · simp [initializeDatabase, h]

/-- C9 counterexample: the vendors collection is NOT non-empty after every
in-memory API request — deleting the single vendor of a concrete store
completes the request with an empty vendors collection. -/
theorem memDeleteVendor_can_empty_vendors :
    exMemDB.vendors ≠ []
    ∧ (memDeleteVendor exMemDB 5 "ts").1.vendors = [] := by
  refine ⟨by decide, by decide⟩

/-- C9 amended: every in-memory data-touching handler first re-seeds the
dataset when the vendors collection is empty, replacing the three
collections with two sample vendors, two sample brands and one sample
issue, and leaving a non-empty store untouched; after any request other
than a vendor deletion the vendors collection is non-empty; a vendor
deletion can leave it empty (per the counterexample), in which case the
sample records reappear on the next request. -/
theorem mem_reseed_amended :
    (∀ db : MemDB, db.vendors = [] →
        (initializeDatabase db).vendors = sampleVendors
          ∧ (initializeDatabase db).brands = sampleBrands
          ∧ (initializeDatabase db).issues = sampleIssues
          ∧ (initializeDatabase db).lastSaved = db.lastSaved)
    ∧ (∀ db : MemDB, db.vendors ≠ [] → initializeDatabase db = db)
    ∧ (sampleVendors.length = 2 ∧ sampleBrands.length = 2 ∧ sampleIssues.length = 1)
    ∧ (∀ db : MemDB, (memGetData db).vendors ≠ [])
    ∧ (∀ (db : MemDB) (now : Nat) (a b : String) (body : MemVendorBody),
        (memPostVendor db now a b body).1.vendors ≠ [])
    ∧ (∀ (db : MemDB) (now : Nat) (a b : String) (body : MemBrandBody),
        (memPostBrand db now a b body).1.vendors ≠ [])
    ∧ (∀ (db : MemDB) (now : Nat) (a b : String) (body : MemIssueBody),
        (memPostIssue db now a b body).1.vendors ≠ [])
    ∧ (∀ (db : MemDB) (iid : Nat) (u : MemIssueUpdate) (t n : String),
        (memPutIssue db iid u t n).1.vendors ≠ [])
    ∧ (∀ (db : MemDB) (bid : Nat) (n : String),
        (memDeleteBrand db bid n).1.vendors ≠ [])
    ∧ (∀ (db : MemDB) (vid : Nat) (n : String),
        (memDeleteVendor db vid n).1.vendors = [] →
        (memGetData (memDeleteVendor db vid n).1).vendors = sampleVendors) := by
  refine ⟨?_, ?_, ⟨rfl, rfl, rfl⟩, ?_, ?_, ?_, ?_, ?_, ?_, ?_⟩
  · intro db h
    exact ⟨by simp [initializeDatabase, h], by simp [initializeDatabase, h],
      by simp [initializeDatabase, h], by simp [initializeDatabase, h]⟩
  · intro db h
    simp [initializeDatabase, h]
  · intro db
    exact initializeDatabase_vendors_ne_nil db
  · intro db now a b body
    simp [memPostVendor]
  · intro db now a b body
    simp only [memPostBrand]
    exact initializeDatabase_vendors_ne_nil db
  · intro db now a b body
    simp only [memPostIssue]
    exact initializeDatabase_vendors_ne_nil db
  · intro db iid u t n
    simp only [memPutIssue]
    cases hfind : (initializeDatabase db).issues.find? (fun i => i.id == iid) with
    | some i => exact initializeDatabase_vendors_ne_nil db
    | none => exact initializeDatabase_vendors_ne_nil db
  · intro db bid n
    simp only [memDeleteBrand]
    exact initializeDatabase_vendors_ne_nil db
  · intro db vid n h
    simp [memGetData, initializeDatabase, h]

/-- Witness for C9 amended: after deleting the only vendor of the concrete
store, the very next request re-seeds the sample vendors. -/
theorem mem_reseed_amended_witness :
    (memGetData (memDeleteVendor exMemDB 5 "ts").1).vendors = sampleVendors :=
  mem_reseed_amended.2.2.2.2.2.2.2.2.2 exMemDB 5 "ts" (by decide)

/-- C10 counterexample: an in-memory vendor deletion with an id that matches
no record does NOT leave the collections unchanged — on the empty store the
handler first re-seeds, so the vendors collection differs before and after
even though no vendor with id 42 ever existed (and the response is still
success). -/
theorem memDeleteVendor_missing_id_reseeds :
    (emptyMemDB.vendors.any (fun v => v.id == 42)) = false
    ∧ (memDeleteVendor emptyMemDB 42 "ts").2 = true
    ∧ (memDeleteVendor emptyMemDB 42 "ts").1.vendors ≠ emptyMemDB.vendors := by
  refine ⟨rfl, rfl, by decide⟩

/-- C10 amended: the in-memory DELETE handlers for vendors and brands always
respond success, never NotFound; when the request causes no re-seed (vendors
non-empty at its start) and the given id matches no vendor, and no brand or
issue references that id, the vendor delete leaves the three collections
unchanged and only lastSaved is rewritten; likewise the brand delete with a
missing brand id leaves the collections unchanged; the PostgreSQL variant
instead answers NotFound for a missing vendor or brand id. -/
theorem memDelete_missing_success_amended :
    (∀ (db : MemDB) (vid : Nat) (ts : String), (memDeleteVendor db vid ts).2 = true)
    ∧ (∀ (db : MemDB) (bid : Nat) (ts : String), (memDeleteBrand db bid ts).2 = true)
    ∧ (∀ (db : MemDB) (vid : Nat) (ts : String),
        db.vendors ≠ [] →
        (∀ v ∈ db.vendors, v.id ≠ vid) →
        (∀ b ∈ db.brands, b.vendorId ≠ vid) →
        (∀ i ∈ db.issues, i.vendorId ≠ vid) →
        (memDeleteVendor db vid ts).1.vendors = db.vendors
          ∧ (memDeleteVendor db vid ts).1.brands = db.brands
          ∧ (memDeleteVendor db vid ts).1.issues = db.issues
          ∧ (memDeleteVendor db vid ts).1.lastSaved = ts)
    ∧ (∀ (db : MemDB) (bid : Nat) (ts : String),
        db.vendors ≠ [] →
        (∀ b ∈ db.brands, b.id ≠ bid) →
        (memDeleteBrand db bid ts).1.vendors = db.vendors
          ∧ (memDeleteBrand db bid ts).1.brands = db.brands
          ∧ (memDeleteBrand db bid ts).1.issues = db.issues
          ∧ (memDeleteBrand db bid ts).1.lastSaved = ts)
    ∧ (∀ (db : PgDB) (vid : Nat),
        db.vendors.any (fun v => v.id == vid) = false →
        pgDeleteVendor db vid = .error .notFound)
    ∧ (∀ (db : PgDB) (bid : Nat),
        db.brands.any (fun b => b.id == bid) = false →
        pgDeleteBrand db bid = .error .notFound) := by
  refine ⟨?_, ?_, ?_, ?_, ?_, ?_⟩
  · intro db vid ts; rfl
  · intro db bid ts; rfl
  · intro db vid ts hne hv hb hi
    have hinit : initializeDatabase db = db := by simp [initializeDatabase, hne]
    refine ⟨?_, ?_, ?_, ?_⟩
    · simp only [memDeleteVendor, hinit]
      exact filter_eq_self_of_forall _ _ (fun v hm => by simp [hv v hm])
    · simp only [memDeleteVendor, hinit]
      exact filter_eq_self_of_forall _ _ (fun b hm => by simp [hb b hm])
    · simp only [memDeleteVendor, hinit]
      exact filter_eq_self_of_forall _ _ (fun i hm => by simp [hi i hm])
    · simp only [memDeleteVendor, hinit]
  · intro db bid ts hne hb
    have hinit : initializeDatabase db = db := by simp [initializeDatabase, hne]
    refine ⟨?_, ?_, ?_, ?_⟩
    · simp only [memDeleteBrand, hinit]
    · simp only [memDeleteBrand, hinit]
      exact filter_eq_self_of_forall _ _ (fun b hm => by simp [hb b hm])
    · simp only [memDeleteBrand, hinit]
    · simp only [memDeleteBrand, hinit]
  · intro db vid h
    simp [pgDeleteVendor, h]
  · intro db bid h
    simp [pgDeleteBrand, h]

/-- Witness for C10 amended: deleting the missing vendor id 99 from the
concrete non-empty store keeps all three collections unchanged while still
reporting success. -/
theorem memDelete_missing_success_amended_witness :
    (memDeleteVendor exMemDB 99 "ts").1.vendors = exMemDB.vendors
    ∧ (memDeleteVendor exMemDB 99 "ts").1.brands = exMemDB.brands
    ∧ (memDeleteVendor exMemDB 99 "ts").1.issues = exMemDB.issues
    ∧ (memDeleteVendor exMemDB 99 "ts").1.lastSaved = "ts" :=
  memDelete_missing_success_amended.2.2.1 exMemDB 99 "ts"
    (by decide) (by decide) (by decide) (by decide)

end Gdees
